import Mathlib

/-!
Verification development for the keploy-agent repository.

The repository has two cores:
* `src/agent/src/tools/generate_unit_tests.ts` — the generate → execute →
  diagnose → regenerate retry loop of the unit-test-generation tool;
* `src/main.go` — the Bubble Tea client: the conversation state machine that
  folds worker envelopes (`response`, `stream_chunk`, `error`) into the
  transcript, the chat-send key handlers, and the line-delimited envelope
  encoders.

The definitions below are a shallow embedding of that code: every external
effect (file stat/read, embedding service, vector search, generative backend,
test-runner subprocess) is an oracle supplied as a parameter, and the pure
control flow, string manipulation and classification logic are translated
directly from the source.  Wall-clock timestamps, terminal rendering
(viewport/styles) and the literal model-prompt text are not modelled; they do
not affect any property stated here.
-/

namespace KeployAgent

/-! Section: String utilities

Executable substring / trim / suffix primitives used throughout.  They model
JavaScript `String.prototype.includes` / `trim` and Go `strings.Contains` /
`strings.TrimSpace` (restricted to ASCII whitespace, the only whitespace that
occurs in any string this development manipulates). -/

/-- Predicate `leadsWith needle hay` is true when `needle` is an initial run of `hay`. -/
def leadsWith : List Char → List Char → Bool
  | [], _ => true
  | _ :: _, [] => false
  | a :: as, b :: bs => a == b && leadsWith as bs

/-- Predicate `occursIn needle hay` is true when `needle` occurs contiguously in `hay`
(JS `hay.includes(needle)`, Go `strings.Contains hay needle`). -/
def occursIn (needle : List Char) : List Char → Bool
  | [] => leadsWith needle []
  | c :: rest => leadsWith needle (c :: rest) || occursIn needle rest

/-- String-level wrapper `strIncludes hay pat` for `occursIn`. -/
def strIncludes (hay pat : String) : Bool :=
  occursIn pat.data hay.data

/-- Trim leading and trailing whitespace (JS `trim`, Go `strings.TrimSpace`). -/
def jsTrim (s : String) : String :=
  String.mk (((s.data.dropWhile Char.isWhitespace).reverse.dropWhile
    Char.isWhitespace).reverse)

/-- Predicate `strEndsWithB s suf`: does `s` end with `suf`? -/
def strEndsWithB (s suf : String) : Bool :=
  leadsWith suf.data.reverse s.data.reverse

/-- JS `a || b` on strings: `b` when `a` is empty (falsy), else `a`. -/
def jsOr (a b : String) : String :=
  if a = "" then b else a

/-! Section: Test-generation tool: result classification
(`generate_unit_tests.ts`, `executeTestsWithRetry`, lines 307–346) -/

/-- Outcome of one `go test -v ./<file>` subprocess run.
`ok` is a zero-exit run with its captured stdout/stderr; `err` is a rejected
`execAsync` promise (non-zero exit, timeout, or spawn failure) carrying the
rejection message and the captured stdout/stderr fields. -/
inductive ExecOutcome where
  | ok (stdout stderr : String)
  | err (message stdout stderr : String)
deriving DecidableEq, Repr

/-- The pass signal `stdout.includes('PASS') || stdout.includes('ok')` (line 320). -/
def hasPassSignal (stdout : String) : Bool :=
  strIncludes stdout "PASS" || strIncludes stdout "ok"

/-- The compilation-error markers checked on stderr (lines 321–325). -/
def hasCompilationError (stderr : String) : Bool :=
  strIncludes stderr "undefined:" || strIncludes stderr "redeclared" ||
  strIncludes stderr "unknown field" || strIncludes stderr "too many errors" ||
  strIncludes stderr "syntax error"

/-- The success check `hasPass && !hasCompilationError` (line 327). -/
def classifySuccess (stdout stderr : String) : Bool :=
  hasPassSignal stdout && !hasCompilationError stderr

/-- Whether one attempt is classified as a success: a zero-exit run whose
output passes `classifySuccess`; every rejected run (non-zero exit, timeout)
lands in the `catch` block and is a failure. -/
def attemptOutcomeSuccess : ExecOutcome → Bool
  | .ok out errOut => classifySuccess out errOut
  | .err _ _ _ => false

/-- The spec claim's classifier, written from the claim's own words: success
iff a pass signal is present and the error output contains none of the five
listed markers — the first of which the claim spells "undefined reference".
Kept separate from `classifySuccess` (translated from the source) so the two
can be compared. -/
def attemptSuccessSpecClaim : ExecOutcome → Bool
  | .ok out errOut =>
      hasPassSignal out &&
      !(strIncludes errOut "undefined reference" ||
        strIncludes errOut "redeclared" ||
        strIncludes errOut "unknown field" ||
        strIncludes errOut "syntax error" ||
        strIncludes errOut "too many errors")
  | .err _ _ _ => false

/-- The amended spec classifier: identical to `attemptSuccessSpecClaim` except
that the first marker is the source's literal `"undefined:"` instead of the
claim's `"undefined reference"`. -/
def attemptSuccessSpecAmended : ExecOutcome → Bool
  | .ok out errOut =>
      hasPassSignal out &&
      !(strIncludes errOut "undefined:" ||
        strIncludes errOut "redeclared" ||
        strIncludes errOut "unknown field" ||
        strIncludes errOut "syntax error" ||
        strIncludes errOut "too many errors")
  | .err _ _ _ => false

/-! Section: Regeneration guidance classifier
(`generate_unit_tests.ts`, `generateTestsWithErrorContext`, lines 463–475) -/

/-- The five guidance categories: duplicate-declaration, undefined-reference,
field-mismatch, syntax-error, generic. -/
inductive GuidanceCategory where
  | dupDecl
  | undefRef
  | fieldMismatch
  | synError
  | generic
deriving DecidableEq, Repr

/-- The if/else chain classifying the execution-failure text into a guidance
category (lines 465–475).  Earlier branches win on overlapping markers. -/
def errorGuidance (errorMessage : String) : GuidanceCategory :=
  if strIncludes errorMessage "redeclared" then .dupDecl
  else if strIncludes errorMessage "undefined:" then .undefRef
  else if strIncludes errorMessage "unknown field" then .fieldMismatch
  else if strIncludes errorMessage "syntax error" then .synError
  else .generic

/-! Section: Test-file assembly
(`generate_unit_tests.ts`, `generateTests` lines 174–280 and
`generateTestsWithErrorContext` lines 425–552) -/

/-- The `testFramework` input: `z.enum(['testing', 'testify'])`. -/
inductive Framework where
  | testing
  | testify
deriving DecidableEq, Repr

/-- The deterministic import block prefixed to every generated file
(lines 246–248 / 518–520 / 263–265 / 535–537). -/
def importStatementFor : Framework → String
  | .testify => "import (\n  \"testing\"\n  \"github.com/stretchr/testify/assert\"\n)"
  | .testing => "import (\n  \"testing\"\n)"

/-- Case-insensitive `leadsWith`, for the `/i` regexes stripping fences. -/
def leadsWithCI : List Char → List Char → Bool
  | [], _ => true
  | _ :: _, [] => false
  | a :: as, b :: bs => a.toLower == b.toLower && leadsWithCI as bs

/-- One anchored-start fence strip: `.replace(/^<tag>\s*/i, '')` — if the text
starts with `tag` (case-insensitively), drop it and the whitespace after it. -/
def stripFenceStart (tag : List Char) (cs : List Char) : List Char :=
  if leadsWithCI tag cs then (cs.drop tag.length).dropWhile Char.isWhitespace
  else cs

/-- Does a ``` fence start here with only whitespace after it (so that
`/```\s*$/` matches at this position)? -/
def fenceEndAt (cs : List Char) : Bool :=
  leadsWith "```".data cs && (cs.drop 3).all Char.isWhitespace

/-- Index of the first position where `/```\s*$/` matches, if any — the
JS regex engine scans left to right. -/
def fenceEndIdx : List Char → Option Nat
  | [] => none
  | c :: rest =>
    if fenceEndAt (c :: rest) then some 0 else (fenceEndIdx rest).map (· + 1)

/-- One anchored-end fence strip: `.replace(/```\s*$/i, '')`. -/
def stripFenceEnd (cs : List Char) : List Char :=
  match fenceEndIdx cs with
  | some i => cs.take i
  | none => cs

/-- The markdown-fence cleanup applied to the backend's raw text
(lines 237–243 / 509–515): trim, then the four anchored `replace` calls in
source order. -/
def cleanFences (s : String) : String :=
  String.mk
    (stripFenceEnd (stripFenceStart "```".data
      (stripFenceEnd (stripFenceStart "```go".data (jsTrim s).data))))

/-- Final test-file assembly around a cleaned backend response
(lines 251–256 / 523–528): package clause, import block, body. -/
def assembleTestFile (fw : Framework) (body : String) : String :=
  "package main\n\n" ++ importStatementFor fw ++ "\n\n" ++ body ++ "\n"

/-- Constant prefix of the `generateTests` fallback template, up to the
interpolated error message (lines 267–278). -/
def fallbackPre (n : Nat) (fw : Framework) : String :=
  "package main\n\n" ++ importStatementFor fw ++
  "\n\n// AI test generation failed, using fallback template\n// Vector search found " ++
  toString n ++ " similar examples\n// Error: "

/-- Constant suffix of the `generateTests` fallback template: the skipped
placeholder test. -/
def fallbackSuf : String :=
  "\n\nfunc TestPlaceholder(t *testing.T) \x7b\n  t.Skip(\"AI test generation failed - please implement tests manually\")\n\x7d\n"

/-- The placeholder artifact `generateTests` returns when the generative
backend call itself throws (catch block, lines 259–279): `n` is
`examples.length`, `e` is `error.message`. -/
def generateTestsFallback (n : Nat) (e : String) (fw : Framework) : String :=
  fallbackPre n fw ++ e ++ fallbackSuf

/-- A row of the vector-search result
(`searchVectorDatabase`, lines 155–166): `file_path`, `chunk_id`, `content`.
The float `distance` column is only interpolated into prompt text, which is
out of scope, so it is not carried. -/
structure Neighbor where
  filePath : String
  chunkId : Nat
  content : String
deriving DecidableEq, Repr

/-- Model of `generateTests` (lines 174–280).  The generative backend call is the
oracle `backendResult`; `codeContent` and `cov` only shape the prompt text
(out of scope).  On backend success the response is fence-cleaned and wrapped;
on backend error the fallback placeholder is returned — the function never
propagates the exception. -/
def generateTestsModel (codeContent : String) (examples : List Neighbor)
    (fw : Framework) (cov : Option Nat)
    (backendResult : Except String String) : String :=
  match backendResult with
  | .ok t => assembleTestFile fw (cleanFences t)
  | .error e => generateTestsFallback examples.length e fw

/-- Constant prefix of the `generateTestsWithErrorContext` fallback template
(lines 539–550), up to the interpolated previous error message. -/
def regenFallbackPre (fw : Framework) : String :=
  "package main\n\n" ++ importStatementFor fw ++
  "\n\n// AI test regeneration failed, using fallback template\n// Previous error: "

/-- Middle and suffix of the regeneration fallback template: the attempt
number and the skipped placeholder test. -/
def regenFallbackSuf (attempt : Nat) : String :=
  "\n// Attempt: " ++ toString (attempt + 1) ++
  "\n\nfunc TestPlaceholder(t *testing.T) \x7b\n  t.Skip(\"AI test regeneration failed - please implement tests manually\")\n\x7d\n"

/-- Model of `generateTestsWithErrorContext` (lines 425–552): same assembly as
`generateTestsModel`; the category-specific guidance chosen by
`errorGuidance` and the raw error text are injected into the prompt (out of
scope), and the catch fallback interpolates the previous error and attempt. -/
def generateTestsWithErrorContextModel (codeContent : String)
    (examples : List Neighbor) (fw : Framework) (cov : Option Nat)
    (errorMessage : String) (attempt : Nat)
    (backendResult : Except String String) : String :=
  match backendResult with
  | .ok t => assembleTestFile fw (cleanFences t)
  | .error _ => regenFallbackPre fw ++ errorMessage ++ regenFallbackSuf attempt

/-! Section: The retry loop
(`executeTestsWithRetry`, lines 282–423) -/

/-- The ceiling `maxRetries = 3` (line 291). -/
def maxRetries : Nat := 3

/-- What the `catch` block can see of a failure: `error.message`, and the
`error.stdout` / `error.stderr` fields (present only on `execAsync`
rejections, absent on the internally-thrown `Tests failed` error). -/
structure ErrInfo where
  message : String
  stdoutField : Option String
  stderrField : Option String
deriving DecidableEq, Repr

/-- The `Tests failed: ${stdout}\n${stderr}`.trim() message thrown when a
zero-exit run does not classify as success (lines 344–345). -/
def testsFailedMessage (out errOut : String) : String :=
  "Tests failed: " ++ jsTrim (out ++ "\n" ++ errOut)

/-- The error the `catch` block receives for a failing attempt. -/
def errInfoOfOutcome : ExecOutcome → ErrInfo
  | .ok out errOut => ⟨testsFailedMessage out errOut, none, none⟩
  | .err m so se => ⟨m, some so, some se⟩

/-- The expression `error.stderr || error.message || 'Unknown test error'` (line 350). -/
def errorMessageOf (e : ErrInfo) : String :=
  jsOr (e.stderrField.getD "") (jsOr e.message "Unknown test error")

/-- The expression `lastError?.message || 'Unknown error'` (line 420). -/
def finalErrorOf : Option ErrInfo → String
  | none => "Unknown error"
  | some e => jsOr e.message "Unknown error"

/-- The expression `lastError?.stdout || ''` (line 421). -/
def finalOutputOf : Option ErrInfo → String
  | none => ""
  | some e => e.stdoutField.getD ""

/-- The stdout carried into the success result (line 339). -/
def stdoutOfOutcome : ExecOutcome → String
  | .ok out _ => out
  | .err _ so _ => so

/-- The loop's return value: `{success: true, attempt, output}` on a passing
attempt, `{success: false, attempts, finalError, output}` after the ceiling. -/
inductive RetryResult where
  | passed (attempt : Nat) (output : String)
  | failed (attempts : Nat) (finalError : String) (output : String)
deriving DecidableEq, Repr

/-- Observable outcome of one loop run: the returned result, the number of
test-runner executions performed, the regenerated artifact contents written to
the test file, and the number of regeneration backend invocations. -/
structure LoopOut where
  result : RetryResult
  execCount : Nat
  regenWrites : List String
  genCalls : Nat
deriving DecidableEq, Repr

/-- The `if (attempt < maxRetries)` regeneration step (lines 361–403):
invoke `generateTestsWithErrorContext` (which never throws) and rewrite the
test file; a failing write (`writeOk` false) is caught and only reported.
Returns (backend invocations, contents written). -/
def regenStep (regenBackend : Nat → Except String String)
    (writeOk : Nat → Bool) (code : String) (examples : List Neighbor)
    (fw : Framework) (cov : Option Nat) (attempt : Nat) (e : ErrInfo) :
    Nat × List String :=
  if attempt < maxRetries then
    let content := generateTestsWithErrorContextModel code examples fw cov
      (errorMessageOf e) attempt (regenBackend attempt)
    (1, if writeOk attempt then [content] else [])
  else (0, [])

/-- The body of `while (attempt <= maxRetries)` (lines 295–407), as a
recursion on the remaining permitted attempts (`fuel = maxRetries - attempt
+ 1`).  `exec n` is the outcome of running `go test` on attempt `n`.  When
the fuel runs out, the final-failure result of lines 417–422 is built from
`lastError`. -/
def runAttempts (exec : Nat → ExecOutcome)
    (regenBackend : Nat → Except String String) (writeOk : Nat → Bool)
    (code : String) (examples : List Neighbor) (fw : Framework)
    (cov : Option Nat) : Nat → Nat → Option ErrInfo → LoopOut
  | 0, _attempt, last =>
      ⟨.failed maxRetries (finalErrorOf last) (finalOutputOf last), 0, [], 0⟩
  | fuel + 1, attempt, _last =>
      let o := exec attempt
      if attemptOutcomeSuccess o = true then
        ⟨.passed attempt (stdoutOfOutcome o), 1, [], 0⟩
      else
        let e := errInfoOfOutcome o
        let gw := regenStep regenBackend writeOk code examples fw cov attempt e
        let rest := runAttempts exec regenBackend writeOk code examples fw cov
          fuel (attempt + 1) (some e)
        ⟨rest.result, rest.execCount + 1, gw.2 ++ rest.regenWrites,
         gw.1 + rest.genCalls⟩

/-- Model of `executeTestsWithRetry` (lines 282–423): run the loop from attempt 1 with
no prior error. -/
def executeTestsWithRetryM (exec : Nat → ExecOutcome)
    (regenBackend : Nat → Except String String) (writeOk : Nat → Bool)
    (code : String) (examples : List Neighbor) (fw : Framework)
    (cov : Option Nat) : LoopOut :=
  runAttempts exec regenBackend writeOk code examples fw cov maxRetries 1 none

/-! Section: The tool pipeline
(`createGenerateUnitTestsTool`'s `execute`, lines 15–108) -/

/-- What `fs.stat` reports that the tool consumes: `isFile()`. -/
structure FileStat where
  isFileFlag : Bool
deriving DecidableEq, Repr

/-- Oracles for every external effect of one tool invocation.  Each `Except`
error is the thrown/rejected message for that call. -/
structure ToolEnv where
  /-- Result of `fs.stat(fullPath)` (line 33); `.error` is the thrown message
  (e.g. an ENOENT message naming the path). -/
  statResult : Except String FileStat
  /-- Result of `fs.readFile(fullPath, 'utf8')` (line 43). -/
  readResult : Except String String
  /-- Result of `generateEmbedding(content)` (line 46): opaque vector on success,
  thrown message (missing env var / service error) on failure. -/
  embedResult : Except String (List Int)
  /-- Result of `searchVectorDatabase(embedding)` (line 49). -/
  searchResult : Except String (List Neighbor)
  /-- The `generateText` backend call inside `generateTests` (line 224). -/
  genResult : Except String String
  /-- Whether `fs.stat(fullTestPath)` finds an existing test file (line 61). -/
  testFileExists : Bool
  /-- Outcome of the test-runner execution on each attempt. -/
  exec : Nat → ExecOutcome
  /-- The `generateText` backend call inside each regeneration. -/
  regenBackend : Nat → Except String String
  /-- Whether the regeneration `fs.writeFile` succeeds on each attempt. -/
  writeOk : Nat → Bool

/-- The tool's structured return value: either the `{error, filePath}` object
(validation returns at lines 35 and 39, and the outer catch at line 106) or
the success object of lines 97–104. -/
inductive ToolResult where
  | errorResult (message : String) (filePath : String)
  | success (filePath testFilePath : String) (size : Nat)
      (testResults : RetryResult)
deriving DecidableEq, Repr

/-- Side effects of one tool invocation: `(path, content)` pairs written to
disk, test-runner executions, and generative-backend invocations. -/
structure ToolTrace where
  wrote : List (String × String)
  execCount : Nat
  genCalls : Nat
deriving DecidableEq, Repr

/-- The derivation `filePath.replace(/\.go$/, '_test.go')` (line 55). -/
def testPathOf (p : String) : String :=
  if strEndsWithB p ".go" then
    String.mk (p.data.take (p.data.length - 3)) ++ "_test.go"
  else p

/-- The `execute` body of the tool (lines 15–108): validate (stat must
succeed, must be a regular file, must end in `.go` — in that order), read,
embed, search, generate, write the artifact, then run the retry loop.  Any
throw before generation lands in the outer catch and yields
`{error, filePath}` with nothing generated, written or executed. -/
def executeGenerateUnitTests (env : ToolEnv) (filePath : String)
    (fw : Framework) (cov : Option Nat) : ToolResult × ToolTrace :=
  match env.statResult with
  | .error m => (.errorResult m filePath, ⟨[], 0, 0⟩)
  | .ok st =>
    if st.isFileFlag = false then
      (.errorResult ("Path is not a file: " ++ filePath) filePath, ⟨[], 0, 0⟩)
    else if strEndsWithB filePath ".go" = false then
      (.errorResult ("File is not a Go file: " ++ filePath) filePath,
       ⟨[], 0, 0⟩)
    else
      match env.readResult with
      | .error m => (.errorResult m filePath, ⟨[], 0, 0⟩)
      | .ok content =>
        match env.embedResult with
        | .error m => (.errorResult m filePath, ⟨[], 0, 0⟩)
        | .ok _emb =>
          match env.searchResult with
          | .error m => (.errorResult m filePath, ⟨[], 0, 0⟩)
          | .ok examples =>
            let testContent :=
              generateTestsModel content examples fw cov env.genResult
            let testFilePath := testPathOf filePath
            let loopOut := executeTestsWithRetryM env.exec env.regenBackend
              env.writeOk content examples fw cov
            (.success filePath testFilePath testContent.length loopOut.result,
             ⟨(testFilePath, testContent) ::
                loopOut.regenWrites.map (fun c => (testFilePath, c)),
              loopOut.execCount, 1 + loopOut.genCalls⟩)

/-! Section: The client conversation state machine
(`main.go`, `Model` and `Model.Update`) -/

/-- Struct `ChatMessage` (main.go lines 48–53).  The wall-clock `Timestamp` is not
modelled; no claim mentions it. -/
structure ChatMessage where
  role : String
  content : String
  isError : Bool
deriving DecidableEq, Repr

/-- Enum `AppState` (lines 40–45). -/
inductive AppState where
  | stateAPIKey
  | stateChat
deriving DecidableEq, Repr

/-- The state the `Update` reducer reads and writes (lines 62–77), minus the
rendering-only fields (viewport, styles, window size) and the process
handles.  `apiKeyValue` / `chatValue` are the text held by the two inputs. -/
structure Model where
  state : AppState
  apiKeyValue : String
  chatValue : String
  messages : List ChatMessage
  agentReady : Bool
  isProcessing : Bool
deriving DecidableEq, Repr

/-- The `response` payload (lines 364–368): absent fields decode to `""`. -/
structure RespData where
  status : String
  message : String
  content : String
deriving DecidableEq, Repr

/-- The `stream_chunk` payload (lines 524–527). -/
structure ChunkData where
  content : String
  status : String
deriving DecidableEq, Repr

/-- The system entry appended on handshake completion (line 378). -/
def initSuccessText : String :=
  "✓ Agent initialized successfully! You can now start by sending a message."

/-- The `MsgResponse` case of `Update` (lines 363–402). -/
def foldResponse (m : Model) (d : RespData) : Model :=
  if d.status = "initialized" then
    { m with state := .stateChat, agentReady := true, isProcessing := false,
             messages := m.messages ++ [⟨"system", initSuccessText, false⟩] }
  else if d.content ≠ "" then
    match m.messages.getLast? with
    | some last =>
      if last.role = "assistant" ∧ last.content = d.content then
        { m with isProcessing := false }
      else if last.role ≠ "assistant" then
        { m with messages := m.messages ++ [⟨"assistant", d.content, false⟩],
                 isProcessing := false }
      else
        { m with isProcessing := false }
    | none =>
      { m with messages := m.messages ++ [⟨"assistant", d.content, false⟩],
               isProcessing := false }
  else m

/-- The `MsgStreamChunk` case of `Update` (lines 523–549). -/
def foldStreamChunk (m : Model) (d : ChunkData) : Model :=
  if d.status = "thinking" then
    { m with messages := m.messages ++ [⟨"system", "💭 Thinking...", false⟩] }
  else if d.content ≠ "" then
    match m.messages.getLast? with
    | some last =>
      if last.role = "assistant" then
        { m with messages :=
            m.messages.dropLast ++ [{ last with content := d.content }] }
      else
        { m with messages := m.messages ++ [⟨"assistant", d.content, false⟩] }
    | none =>
      { m with messages := m.messages ++ [⟨"assistant", d.content, false⟩] }
  else m

/-- Predicate `lastIsAssistant msgs`: the most recent transcript entry exists and has
role "assistant". -/
def lastIsAssistant (msgs : List ChatMessage) : Bool :=
  match msgs.getLast? with
  | some l => l.role == "assistant"
  | none => false

/-! Section: Chat-send key handling
(`main.go`, `Update` `tea.KeyMsg` cases, lines 293–331) -/

/-- An envelope write to the worker's stdin issued by a command the key
handler schedules: `startAgent` writes the `init` envelope (lines 210–217),
`sendChatMessage` writes the `chat` envelope (lines 267–274). -/
inductive SendEvent where
  | initEnvelope (apiKey : String)
  | chatEnvelope (message : String)
deriving DecidableEq, Repr

/-- Go `strings.TrimSpace` as applied to chat input. -/
def trimSpace (s : String) : String := jsTrim s

/-- The `tea.KeyEnter` case (lines 293–314): in `StateAPIKey` a non-empty key
submits the credential; in `StateChat`, when the input holds no newline, a
non-empty trimmed message with `agentReady && !isProcessing` appends a user
entry, resets the input, sets `isProcessing`, and schedules the chat send. -/
def updateKeyEnter (m : Model) : Model × List SendEvent :=
  if m.state = .stateAPIKey ∧ m.isProcessing = false then
    if m.apiKeyValue ≠ "" then
      ({ m with isProcessing := true }, [.initEnvelope m.apiKeyValue])
    else (m, [])
  else if m.state = .stateChat ∧ strIncludes m.chatValue "\n" = false then
    let message := trimSpace m.chatValue
    if message ≠ "" ∧ m.agentReady = true ∧ m.isProcessing = false then
      ({ m with messages := m.messages ++ [⟨"user", message, false⟩],
                chatValue := "", isProcessing := true },
       [.chatEnvelope message])
    else (m, [])
  else (m, [])

/-- The `tea.KeyCtrlS` case (lines 316–331): same chat-send guard, without
the newline restriction and without the credential branch. -/
def updateKeyCtrlS (m : Model) : Model × List SendEvent :=
  if m.state = .stateChat then
    let message := trimSpace m.chatValue
    if message ≠ "" ∧ m.agentReady = true ∧ m.isProcessing = false then
      ({ m with messages := m.messages ++ [⟨"user", message, false⟩],
                chatValue := "", isProcessing := true },
       [.chatEnvelope message])
    else (m, [])
  else (m, [])

/-- Whether a list of scheduled writes contains a chat envelope. -/
def writesChatEnvelope (evs : List SendEvent) : Bool :=
  evs.any fun e => match e with
    | .chatEnvelope _ => true
    | .initEnvelope _ => false

/-! Section: Envelope payload encoding
(`main.go`, `sendChatMessage` lines 261–278 and `startAgent` lines 209–217)

The chat payload is built with
`fmt.Sprintf(...{"message":"%s"}..., strings.ReplaceAll(message, quote,
backslash-quote))` — only double quotes are escaped; the init payload is
built with `fmt.Sprintf(...{"apiKey":"%s"}..., apiKey)` — nothing is
escaped.  The decoder below implements the JSON string-literal grammar (the
reading side is a JSON parser), so the encode/decode round trip of the claim
can be checked. -/

/-- Go `strings.ReplaceAll(message, "\"", "\\\"")`: expand each `"` to `\"`. -/
def expandQuotes : List Char → List Char
  | [] => []
  | c :: cs => (if c = '"' then ['\\', '"'] else [c]) ++ expandQuotes cs

/-- The raw `data` payload of a `chat` envelope (line 269). -/
def chatPayloadData (message : String) : String :=
  "\x7b\"message\":\"" ++ String.mk (expandQuotes message.data) ++ "\"\x7d"

/-- The raw `data` payload of the `init` envelope (line 212). -/
def initPayloadData (apiKey : String) : String :=
  "\x7b\"apiKey\":\"" ++ apiKey ++ "\"\x7d"

/-- Value of a hex digit, if it is one. -/
def hexVal (c : Char) : Option Nat :=
  if '0' ≤ c ∧ c ≤ '9' then some (c.toNat - '0'.toNat)
  else if 'a' ≤ c ∧ c ≤ 'f' then some (c.toNat - 'a'.toNat + 10)
  else if 'A' ≤ c ∧ c ≤ 'F' then some (c.toNat - 'A'.toNat + 10)
  else none

/-- The single-character JSON escapes. -/
def escCharOf (c : Char) : Option Char :=
  if c = '"' then some '"'
  else if c = '\\' then some '\\'
  else if c = '/' then some '/'
  else if c = 'b' then some (Char.ofNat 8)
  else if c = 'f' then some (Char.ofNat 12)
  else if c = 'n' then some '\n'
  else if c = 'r' then some '\r'
  else if c = 't' then some '\t'
  else none

/-- Decode a JSON string body (the characters after the opening quote) up to
its closing quote, per RFC 8259: escapes are translated, `\uXXXX` becomes the
coded character (surrogate pairing is not needed for any input considered
here), and a raw control character (below U+0020) — in particular a raw
newline — is a syntax error.  Returns the decoded characters and the rest of
the input after the closing quote.  `fuel` bounds the recursion; callers pass
the input length, which always suffices since every step consumes input. -/
def decodeStringBody (fuel : Nat) (cs : List Char) :
    Option (List Char × List Char) :=
  match fuel with
  | 0 => none
  | fuel + 1 =>
    match cs with
    | [] => none
    | '"' :: rest => some ([], rest)
    | '\\' :: e :: rest =>
      if e = 'u' then
        match rest with
        | h1 :: h2 :: h3 :: h4 :: rest2 =>
          match hexVal h1, hexVal h2, hexVal h3, hexVal h4 with
          | some a, some b, some c, some d =>
            (decodeStringBody fuel rest2).map
              (fun p => (Char.ofNat (((a * 16 + b) * 16 + c) * 16 + d) :: p.1,
                         p.2))
          | _, _, _, _ => none
        | _ => none
      else
        match escCharOf e with
        | some c => (decodeStringBody fuel rest).map
            (fun p => (c :: p.1, p.2))
        | none => none
    | ['\\'] => none
    | c :: rest =>
      if c.toNat < 32 then none
      else (decodeStringBody fuel rest).map (fun p => (c :: p.1, p.2))

/-- Consume `pat` from the front of `cs`, or fail. -/
def stripLead : List Char → List Char → Option (List Char)
  | [], cs => some cs
  | _ :: _, [] => none
  | p :: ps, c :: cs => if c = p then stripLead ps cs else none

/-- Decode a line of the exact shape the chat encoder emits —
`{"message":"<json string>"}` — recovering the message, or fail if the line
is not valid JSON of that shape. -/
def decodeMessagePayload (line : String) : Option String :=
  match stripLead "\x7b\"message\":\"".data line.data with
  | none => none
  | some rest =>
    match decodeStringBody (rest.length + 1) rest with
    | none => none
    | some (body, rest2) =>
      if rest2 = ['\x7d'] then some (String.mk body) else none

/-- Decode a line of the exact shape the init encoder emits —
`{"apiKey":"<json string>"}`. -/
def decodeApiKeyPayload (line : String) : Option String :=
  match stripLead "\x7b\"apiKey\":\"".data line.data with
  | none => none
  | some rest =>
    match decodeStringBody (rest.length + 1) rest with
    | none => none
    | some (body, rest2) =>
      if rest2 = ['\x7d'] then some (String.mk body) else none

/-! Section: Helper lemmas on the substring predicate -/

/-- A list is an initial run of itself followed by anything. -/
theorem leadsWith_append (xs ys : List Char) : leadsWith xs (xs ++ ys) = true := by
  induction xs with
  | nil => rfl
  | cons a as ih => simp [leadsWith, ih]

/-- An occurrence survives prepending. -/
theorem occursIn_append_right (pat p t : List Char) (h : occursIn pat t = true) :
    occursIn pat (p ++ t) = true := by
  induction p with
  | nil => simpa using h
  | cons c cs ih => simp [occursIn, ih]

/-- A pattern occurs in any list that embeds it contiguously. -/
theorem occursIn_middle (pat p s : List Char) :
    occursIn pat (p ++ (pat ++ s)) = true := by
  induction p with
  | nil =>
    simp only [List.nil_append]
    cases hps : pat ++ s with
    | nil =>
      have : pat = [] := (List.append_eq_nil.mp hps).1
      subst this; rfl
    | cons c rest =>
      rw [occursIn, ← hps, leadsWith_append]
      rfl
  | cons c cs ih => simp [occursIn, ih]

/-- String-level form of `occursIn_middle`. -/
theorem strIncludes_sandwich (p n s : String) :
    strIncludes (p ++ n ++ s) n = true := by
  show occursIn n.data ((p.data ++ n.data) ++ s.data) = true
  rw [List.append_assoc]
  exact occursIn_middle n.data p.data s.data

/-- String-level form of `occursIn_append_right`. -/
theorem strIncludes_tail (p t pat : String) (h : strIncludes t pat = true) :
    strIncludes (p ++ t) pat = true :=
  occursIn_append_right pat.data p.data t.data h

/-- The generation-fallback placeholder is never the empty string. -/
theorem generateTestsFallback_ne_empty (n : Nat) (e : String) (fw : Framework) :
    generateTestsFallback n e fw ≠ "" := by
  intro hemp
  have hsuf : fallbackSuf.data = [] :=
    (List.append_eq_nil.mp (congrArg String.data hemp)).2
  exact absurd hsuf (by decide)

/-- The source classifier agrees with the amended spec classifier everywhere
(the two differ only in the order of the marker disjuncts, and `||`
commutes). -/
theorem successSpecAmended_eq (o : ExecOutcome) :
    attemptOutcomeSuccess o = attemptSuccessSpecAmended o := by
  cases o with
  | ok out errOut =>
    simp only [attemptOutcomeSuccess, attemptSuccessSpecAmended, classifySuccess,
      hasCompilationError]
    cases strIncludes errOut "too many errors" <;>
      cases strIncludes errOut "syntax error" <;> simp
  | err m so se => rfl

/-! Section: Claim theorems -/

/-- Claim C1: in every Generate-Verify-Retry run in which every execution
attempt fails, `executeTestsWithRetry` performs exactly `maxRetries = 3`
test-runner executions and returns `success: false` with `attempts: 3`,
carrying the final error (`lastError?.message || 'Unknown error'`, with
`lastError?.stdout || ''` as the output); it never loops beyond the
ceiling. -/
theorem retry_ceiling_termination
    (exec : Nat → ExecOutcome) (regenBackend : Nat → Except String String)
    (writeOk : Nat → Bool) (code : String) (examples : List Neighbor)
    (fw : Framework) (cov : Option Nat)
    (h : ∀ n, attemptOutcomeSuccess (exec n) = false) :
    (executeTestsWithRetryM exec regenBackend writeOk code examples fw cov).result
      = .failed 3 (finalErrorOf (some (errInfoOfOutcome (exec 3))))
          (finalOutputOf (some (errInfoOfOutcome (exec 3))))
    ∧ (executeTestsWithRetryM exec regenBackend writeOk code examples fw
        cov).execCount = 3 := by
  simp only [executeTestsWithRetryM, maxRetries]
  simp only [show (3 : Nat) = 2 + 1 from rfl, runAttempts, h 1, h 2, h 3,
    Bool.false_eq_true, if_false]
  simp [maxRetries]

/-- Witness for C1 at a run whose three attempts all reject with
`exit status 1`. -/
theorem retry_ceiling_termination_witness :
    (executeTestsWithRetryM (fun _ => .err "exit status 1" "FAIL" "")
        (fun _ => .error "backend down") (fun _ => true) "" [] .testing
        none).result
      = .failed 3 "exit status 1" "FAIL"
    ∧ (executeTestsWithRetryM (fun _ => .err "exit status 1" "FAIL" "")
        (fun _ => .error "backend down") (fun _ => true) "" [] .testing
        none).execCount = 3 := by
  have h := retry_ceiling_termination (fun _ => .err "exit status 1" "FAIL" "")
    (fun _ => .error "backend down") (fun _ => true) "" [] .testing none
    (fun _ => rfl)
  exact ⟨by rw [h.1]; rfl, h.2⟩

/-- Counterexample for C2 as stated: on stdout `"PASS"` with stderr
`"undefined: Foo"` the code classifies failure, while the claim's marker list
(spelled "undefined reference") contains nothing that occurs in this stderr,
so the claim's iff demands success. -/
theorem classification_marker_counterexample :
    attemptOutcomeSuccess (.ok "PASS" "undefined: Foo") = false
    ∧ attemptSuccessSpecClaim (.ok "PASS" "undefined: Foo") = true := by decide

/-- Claim C2 (amended: the first compilation-error marker is the literal
`"undefined:"`, not "undefined reference"): the classification step reports
success iff the runner output has a pass signal and the error output contains
none of the five markers; a rejected run (non-zero exit or timeout) is always
a failure; and a first attempt classified successful makes the loop return
`{success: true, attempt: 1}` after exactly one execution. -/
theorem classification_amended :
    (∀ o : ExecOutcome, attemptOutcomeSuccess o = attemptSuccessSpecAmended o)
    ∧ (∀ (exec : Nat → ExecOutcome) (regenBackend : Nat → Except String String)
        (writeOk : Nat → Bool) (code : String) (examples : List Neighbor)
        (fw : Framework) (cov : Option Nat) (out errOut : String),
        exec 1 = .ok out errOut →
        attemptSuccessSpecAmended (.ok out errOut) = true →
        executeTestsWithRetryM exec regenBackend writeOk code examples fw cov
          = ⟨.passed 1 out, 1, [], 0⟩) := by
  refine ⟨successSpecAmended_eq, ?_⟩
  intro exec regenBackend writeOk code examples fw cov out errOut hE hs
  have hs' : attemptOutcomeSuccess (exec 1) = true := by
    rw [hE, successSpecAmended_eq]; exact hs
  simp only [executeTestsWithRetryM, maxRetries, show (3 : Nat) = 2 + 1 from rfl,
    runAttempts, hs', if_true]
  rw [hE]; rfl

/-- Witness for C2's amended theorem at a run whose first attempt prints a
pass signal and a clean stderr. -/
theorem classification_amended_witness :
    executeTestsWithRetryM (fun _ => .ok "ok  \t(cached)" "")
        (fun _ => .error "x") (fun _ => true) "" [] .testing none
      = ⟨.passed 1 "ok  \t(cached)", 1, [], 0⟩ :=
  classification_amended.2 (fun _ => .ok "ok  \t(cached)" "")
    (fun _ => .error "x") (fun _ => true) "" [] .testing none
    "ok  \t(cached)" "" rfl (by decide)

/-- Claim C3: whenever validation, read, embedding and search succeed but the
generative backend call itself raises, the tool still writes a non-empty
placeholder artifact (first write, at the derived test path) containing the
skip marker `t.Skip(` and the failure reason, and returns the structured
success object instead of propagating the exception. -/
theorem fallback_guarantee (env : ToolEnv) (filePath : String) (fw : Framework)
    (cov : Option Nat) (st : FileStat) (content : String) (emb : List Int)
    (examples : List Neighbor) (e : String)
    (hstat : env.statResult = .ok st) (hfile : st.isFileFlag = true)
    (hgo : strEndsWithB filePath ".go" = true)
    (hread : env.readResult = .ok content)
    (hemb : env.embedResult = .ok emb)
    (hsearch : env.searchResult = .ok examples)
    (hgen : env.genResult = .error e) :
    (executeGenerateUnitTests env filePath fw cov).2.wrote.head?
      = some (testPathOf filePath, generateTestsFallback examples.length e fw)
    ∧ generateTestsFallback examples.length e fw ≠ ""
    ∧ strIncludes (generateTestsFallback examples.length e fw) "t.Skip(" = true
    ∧ strIncludes (generateTestsFallback examples.length e fw) e = true
    ∧ ∃ r, (executeGenerateUnitTests env filePath fw cov).1
        = .success filePath (testPathOf filePath)
            (generateTestsFallback examples.length e fw).length r := by
  refine ⟨?_, generateTestsFallback_ne_empty _ _ _, ?_, ?_, ?_⟩
  · simp [executeGenerateUnitTests, hstat, hfile, hgo, hread, hemb, hsearch,
      hgen, generateTestsModel]
  · exact strIncludes_tail _ _ _ (by cases fw <;> decide)
  · exact strIncludes_sandwich (fallbackPre examples.length fw) e fallbackSuf
  · refine ⟨(executeTestsWithRetryM env.exec env.regenBackend env.writeOk
        content examples fw cov).result, ?_⟩
    simp [executeGenerateUnitTests, hstat, hfile, hgo, hread, hemb, hsearch,
      hgen, generateTestsModel]

/-- Environment for the C3 witness: a valid Go source file, but the
generative backend rejects with "backend down". -/
def envC3W : ToolEnv :=
  { statResult := .ok ⟨true⟩
    readResult := .ok "package main"
    embedResult := .ok []
    searchResult := .ok []
    genResult := .error "backend down"
    testFileExists := false
    exec := fun _ => .err "boom" "" ""
    regenBackend := fun _ => .error "x"
    writeOk := fun _ => true }

/-- Witness for C3: at `envC3W` the first disk write is the skip-marker
placeholder. -/
theorem fallback_guarantee_witness :
    (executeGenerateUnitTests envC3W "foo.go" .testing none).2.wrote.head?
      = some ("foo_test.go", generateTestsFallback 0 "backend down" .testing)
    ∧ strIncludes (generateTestsFallback 0 "backend down" .testing) "t.Skip("
      = true := by
  have h := fallback_guarantee envC3W "foo.go" .testing none ⟨true⟩
    "package main" [] [] "backend down" rfl rfl (by decide) rfl rfl rfl rfl
  exact ⟨by rw [h.1]; rfl, h.2.2.1⟩

/-- Counterexample for C4 as stated.  First input: the transcript ends in an
assistant entry with content "hi", and a `response` with content "hi" but
status "initialized" arrives — the code appends a system entry, so the
transcript does not stay unchanged.  Second input: the trailing assistant
content is the empty string; folding a `response` with that (empty) content
leaves the model untouched, so `isProcessing` is not cleared. -/
theorem response_dedup_counterexample :
    (foldResponse ⟨.stateChat, "", "", [⟨"assistant", "hi", false⟩], true, true⟩
        ⟨"initialized", "", "hi"⟩).messages.length
      ≠ (Model.mk .stateChat "" "" [⟨"assistant", "hi", false⟩] true
          true).messages.length
    ∧ foldResponse ⟨.stateChat, "", "", [⟨"assistant", "", false⟩], true, true⟩
        ⟨"", "", ""⟩
      = ⟨.stateChat, "", "", [⟨"assistant", "", false⟩], true, true⟩
    ∧ (Model.mk .stateChat "" "" [⟨"assistant", "", false⟩] true
        true).isProcessing = true := by decide

/-- Claim C4 (amended: the content must be non-empty and the response's
status must not be "initialized"): for every transcript whose most recent
entry is an assistant entry with content equal to the response's content,
folding the response only clears `isProcessing`, leaving the transcript — and
every other field — unchanged; folding it twice equals folding it once. -/
theorem response_dedup_idempotent (m : Model) (d : RespData)
    (last : ChatMessage) (hlast : m.messages.getLast? = some last)
    (hrole : last.role = "assistant") (hcontent : last.content = d.content)
    (hne : d.content ≠ "") (hstatus : d.status ≠ "initialized") :
    foldResponse m d = { m with isProcessing := false }
    ∧ foldResponse (foldResponse m d) d = foldResponse m d := by
  have h1 : foldResponse m d = { m with isProcessing := false } := by
    simp [foldResponse, hstatus, hne, hlast, hrole, hcontent]
  refine ⟨h1, ?_⟩
  rw [h1]
  simp [foldResponse, hstatus, hne, hlast, hrole, hcontent]

/-- Witness for C4's amended theorem. -/
theorem response_dedup_idempotent_witness :
    foldResponse ⟨.stateChat, "", "", [⟨"assistant", "hi", false⟩], true, true⟩
        ⟨"", "", "hi"⟩
      = { Model.mk .stateChat "" "" [⟨"assistant", "hi", false⟩] true true with
          isProcessing := false }
    ∧ foldResponse
        (foldResponse ⟨.stateChat, "", "", [⟨"assistant", "hi", false⟩], true,
          true⟩ ⟨"", "", "hi"⟩) ⟨"", "", "hi"⟩
      = foldResponse ⟨.stateChat, "", "", [⟨"assistant", "hi", false⟩], true,
          true⟩ ⟨"", "", "hi"⟩ :=
  response_dedup_idempotent
    ⟨.stateChat, "", "", [⟨"assistant", "hi", false⟩], true, true⟩
    ⟨"", "", "hi"⟩ ⟨"assistant", "hi", false⟩ rfl rfl rfl (by decide)
    (by decide)

/-- Counterexample for C5 as stated: on a transcript ending in an assistant
entry, a `stream_chunk` with non-empty content "Hello" but status "thinking"
does not replace the last entry's content — the code appends a thinking
system entry instead, growing the transcript to two entries. -/
theorem stream_chunk_counterexample :
    (foldStreamChunk ⟨.stateChat, "", "", [⟨"assistant", "x", false⟩], true,
        true⟩ ⟨"Hello", "thinking"⟩).messages
      ≠ [⟨"assistant", "Hello", false⟩]
    ∧ (foldStreamChunk ⟨.stateChat, "", "", [⟨"assistant", "x", false⟩], true,
        true⟩ ⟨"Hello", "thinking"⟩).messages.length = 2 := by decide

/-- Claim C5 (amended: the chunk's status must not be "thinking"): folding a
`stream_chunk` with non-empty content replaces the content of a trailing
assistant entry in place and appends a new assistant entry otherwise; in
particular folding content "Hel" then "Hello" from any transcript not ending
in an assistant entry yields exactly one trailing assistant entry "Hello". -/
theorem stream_chunk_refinement :
    (∀ (m : Model) (d : ChunkData) (last : ChatMessage),
        d.status ≠ "thinking" → d.content ≠ "" →
        m.messages.getLast? = some last → last.role = "assistant" →
        (foldStreamChunk m d).messages
          = m.messages.dropLast ++ [{ last with content := d.content }])
    ∧ (∀ (m : Model) (d : ChunkData), d.status ≠ "thinking" → d.content ≠ "" →
        lastIsAssistant m.messages = false →
        (foldStreamChunk m d).messages
          = m.messages ++ [⟨"assistant", d.content, false⟩])
    ∧ (∀ m : Model, lastIsAssistant m.messages = false →
        (foldStreamChunk (foldStreamChunk m ⟨"Hel", ""⟩) ⟨"Hello", ""⟩).messages
          = m.messages ++ [⟨"assistant", "Hello", false⟩]) := by
  have part1 : ∀ (m : Model) (d : ChunkData) (last : ChatMessage),
      d.status ≠ "thinking" → d.content ≠ "" →
      m.messages.getLast? = some last → last.role = "assistant" →
      (foldStreamChunk m d).messages
        = m.messages.dropLast ++ [{ last with content := d.content }] := by
    intro m d last hth hne hlast hrole
    simp [foldStreamChunk, hth, hne, hlast, hrole]
  have part2 : ∀ (m : Model) (d : ChunkData), d.status ≠ "thinking" →
      d.content ≠ "" → lastIsAssistant m.messages = false →
      (foldStreamChunk m d).messages
        = m.messages ++ [⟨"assistant", d.content, false⟩] := by
    intro m d hth hne hla
    cases hl : m.messages.getLast? with
    | none => simp [foldStreamChunk, hth, hne, hl]
    | some l =>
      have hr : ¬ l.role = "assistant" := by
        simp [lastIsAssistant, hl] at hla; simpa using hla
      simp [foldStreamChunk, hth, hne, hl, hr]
  refine ⟨part1, part2, ?_⟩
  intro m hla
  have h1 : (foldStreamChunk m ⟨"Hel", ""⟩).messages
      = m.messages ++ [⟨"assistant", "Hel", false⟩] :=
    part2 m ⟨"Hel", ""⟩ (by decide) (by decide) hla
  have h2 := part1 (foldStreamChunk m ⟨"Hel", ""⟩) ⟨"Hello", ""⟩
    ⟨"assistant", "Hel", false⟩ (by decide) (by decide)
    (by rw [h1]; exact List.getLast?_concat _) rfl
  rw [h2, h1, List.dropLast_concat]

/-- Witness for C5's amended theorem: the "Hel" then "Hello" refinement on a
transcript ending in a user entry. -/
theorem stream_chunk_refinement_witness :
    (foldStreamChunk
        (foldStreamChunk ⟨.stateChat, "", "", [⟨"user", "q", false⟩], true,
          true⟩ ⟨"Hel", ""⟩) ⟨"Hello", ""⟩).messages
      = (Model.mk .stateChat "" "" [⟨"user", "q", false⟩] true true).messages
        ++ [⟨"assistant", "Hello", false⟩] :=
  stream_chunk_refinement.2.2
    ⟨.stateChat, "", "", [⟨"user", "q", false⟩], true, true⟩ (by decide)

/-- Claim C6 (amended: "syntax error" selects the syntax-error category only
when none of the earlier markers "redeclared", "undefined:", "unknown field"
occur; the classifier is a total function into the five categories, so it
always selects exactly one).  Any text containing "redeclared" selects
duplicate-declaration unconditionally, being the first branch. -/
theorem guidance_classification (s : String) :
    (strIncludes s "redeclared" = true → errorGuidance s = .dupDecl)
    ∧ (strIncludes s "syntax error" = true →
       strIncludes s "redeclared" = false →
       strIncludes s "undefined:" = false →
       strIncludes s "unknown field" = false →
       errorGuidance s = .synError) := by
  constructor
  · intro h; simp [errorGuidance, h]
  · intro h1 h2 h3 h4; simp [errorGuidance, h1, h2, h3, h4]

/-- Counterexample for C6 as stated: an error text containing both
"redeclared" and "syntax error" selects duplicate-declaration, not the
syntax-error category the claim demands. -/
theorem guidance_counterexample :
    errorGuidance "x redeclared and a syntax error" = .dupDecl
    ∧ GuidanceCategory.dupDecl ≠ GuidanceCategory.synError := by decide

/-- Witness for C6's amended theorem at two concrete error texts. -/
theorem guidance_classification_witness :
    errorGuidance "a syntax error" = .synError
    ∧ errorGuidance "b redeclared" = .dupDecl :=
  ⟨(guidance_classification "a syntax error").2 (by decide) (by decide)
      (by decide) (by decide),
   (guidance_classification "b redeclared").1 (by decide)⟩

/-- Claim C7 (code bug): the chat encoder escapes only double quotes and the
init encoder escapes nothing, so the written line is not always a decodable
envelope recovering the payload.  At message `C:\new` (six characters, with a
literal backslash) the line decodes to the five-character string with an
embedded newline instead; at a message with an embedded newline the line is
not valid JSON at all (Go's `json.Marshal` of the raw payload fails and only
an empty line is written); at apiKey `a"b` the init line is not valid JSON. -/
theorem envelope_encoding_bug :
    decodeMessagePayload (chatPayloadData "C:\\new") = some "C:\new"
    ∧ "C:\new" ≠ "C:\\new"
    ∧ decodeMessagePayload (chatPayloadData "a\nb") = none
    ∧ decodeApiKeyPayload (initPayloadData "a\"b") = none := by decide

/-- Claim C8: whenever `isProcessing` is true, or the client is not active
(state not `StateChat`, or `agentReady` false), neither send-triggering key
writes a chat envelope or appends a user entry; Ctrl+S is a complete no-op,
and when `isProcessing` is true so is Enter.  (When the state is
`StateAPIKey`, Enter is the credential submit, which writes only an `init`
envelope — not a chat send.) -/
theorem single_flight_chat (m : Model)
    (h : m.isProcessing = true ∨ m.state ≠ .stateChat ∨ m.agentReady = false) :
    writesChatEnvelope (updateKeyEnter m).2 = false
    ∧ (updateKeyEnter m).1.messages = m.messages
    ∧ updateKeyCtrlS m = (m, [])
    ∧ (m.isProcessing = true → updateKeyEnter m = (m, [])) := by
  obtain ⟨st, ak, cv, ms, ar, ip⟩ := m
  cases st <;> cases ar <;> cases ip <;>
    simp_all [updateKeyEnter, updateKeyCtrlS, writesChatEnvelope] <;>
    split <;> simp [writesChatEnvelope]

/-- Witness for C8 at an active chat state with `isProcessing = true` and a
non-empty draft message. -/
theorem single_flight_chat_witness :
    writesChatEnvelope
        (updateKeyEnter ⟨.stateChat, "", "draft", [⟨"user", "q", false⟩], true,
          true⟩).2 = false
    ∧ (updateKeyEnter ⟨.stateChat, "", "draft", [⟨"user", "q", false⟩], true,
        true⟩).1.messages
      = (Model.mk .stateChat "" "draft" [⟨"user", "q", false⟩] true
          true).messages
    ∧ updateKeyCtrlS ⟨.stateChat, "", "draft", [⟨"user", "q", false⟩], true,
        true⟩
      = (⟨.stateChat, "", "draft", [⟨"user", "q", false⟩], true, true⟩, [])
    ∧ ((Model.mk .stateChat "" "draft" [⟨"user", "q", false⟩] true
        true).isProcessing = true →
       updateKeyEnter ⟨.stateChat, "", "draft", [⟨"user", "q", false⟩], true,
          true⟩
        = (⟨.stateChat, "", "draft", [⟨"user", "q", false⟩], true, true⟩, [])) :=
  single_flight_chat
    ⟨.stateChat, "", "draft", [⟨"user", "q", false⟩], true, true⟩ (.inl rfl)

/-- Claim C9: whenever `fs.stat` fails, or the path is not a regular file, or
the path does not end in `.go`, the tool returns the structured
`{error, filePath}` object and aborts with no disk write, no test execution
and no generative-backend call — hence no retry. -/
theorem validation_aborts (env : ToolEnv) (filePath : String) (fw : Framework)
    (cov : Option Nat)
    (h : (∃ m, env.statResult = .error m)
       ∨ (∃ st, env.statResult = .ok st ∧ st.isFileFlag = false)
       ∨ (∃ st, env.statResult = .ok st ∧ st.isFileFlag = true
            ∧ strEndsWithB filePath ".go" = false)) :
    (∃ m, (executeGenerateUnitTests env filePath fw cov).1
        = .errorResult m filePath)
    ∧ (executeGenerateUnitTests env filePath fw cov).2 = ⟨[], 0, 0⟩ := by
  rcases h with ⟨m, hm⟩ | ⟨st, hst, hf⟩ | ⟨st, hst, hf, hgo⟩
  · exact ⟨⟨m, by simp [executeGenerateUnitTests, hm]⟩,
      by simp [executeGenerateUnitTests, hm]⟩
  · exact ⟨⟨"Path is not a file: " ++ filePath,
      by simp [executeGenerateUnitTests, hst, hf]⟩,
      by simp [executeGenerateUnitTests, hst, hf]⟩
  · exact ⟨⟨"File is not a Go file: " ++ filePath,
      by simp [executeGenerateUnitTests, hst, hf, hgo]⟩,
      by simp [executeGenerateUnitTests, hst, hf, hgo]⟩

/-- Environment for the C9 witness: `fs.stat` rejects with an ENOENT error
naming the path. -/
def envC9W : ToolEnv :=
  { statResult := .error "ENOENT: no such file or directory, stat /work/foo.go"
    readResult := .ok ""
    embedResult := .ok []
    searchResult := .ok []
    genResult := .ok ""
    testFileExists := false
    exec := fun _ => .ok "" ""
    regenBackend := fun _ => .ok ""
    writeOk := fun _ => true }

/-- Witness for C9 at `envC9W`. -/
theorem validation_aborts_witness :
    (∃ m, (executeGenerateUnitTests envC9W "foo.go" .testing none).1
        = .errorResult m "foo.go")
    ∧ (executeGenerateUnitTests envC9W "foo.go" .testing none).2 = ⟨[], 0, 0⟩ :=
  validation_aborts envC9W "foo.go" .testing none (.inl ⟨_, rfl⟩)

/-- Claim C10: folding a `response` whose content is empty and whose status
is not "initialized" leaves the model — transcript, `isProcessing`, and every
other field — unchanged. -/
theorem response_empty_noop (m : Model) (d : RespData)
    (hc : d.content = "") (hs : d.status ≠ "initialized") :
    foldResponse m d = m := by
  simp [foldResponse, hs, hc]

/-- Witness for C10 at a processing chat state and a contentless response. -/
theorem response_empty_noop_witness :
    foldResponse ⟨.stateChat, "", "", [⟨"user", "q", false⟩], true, true⟩
        ⟨"", "working", ""⟩
      = ⟨.stateChat, "", "", [⟨"user", "q", false⟩], true, true⟩ :=
  response_empty_noop
    ⟨.stateChat, "", "", [⟨"user", "q", false⟩], true, true⟩
    ⟨"", "working", ""⟩ rfl (by decide)

end KeployAgent
